import Mathlib

/-!
Shallow embedding of the LegalDoc document-ingestion and response-structuring
pipeline (src/document_processor.py, src/gemini_analyzer.py, and the analysis
update block of src/app.py), together with proofs settling the frozen claims.

Python strings are modelled as `List Char` (one entry per code point) wrapped
in `String` at component boundaries.  Python's whitespace-sensitive string
operations (`str.split()`, `str.strip()`, `str.isupper()`, `str.isdigit()`,
`str.upper()`, `str.lower()`) are modelled over the ASCII range, which covers
every character the pipeline's own literals use.
-/

deriving instance DecidableEq for Except

namespace LegalDoc

/-- Whitespace characters recognised by Python's `str.split()` / `str.strip()`
(ASCII range). -/
def isPySpace (c : Char) : Bool :=
  c = ' ' ∨ c = '\t' ∨ c = '\n' ∨ c = '\x0b' ∨ c = '\x0c' ∨ c = '\r'

/-- Python `str.strip()` on a list of characters: drop leading and trailing
whitespace. -/
def pyStripL (s : List Char) : List Char :=
  ((s.dropWhile isPySpace).reverse.dropWhile isPySpace).reverse

/-- Python `str.strip()` at the `String` level. -/
def pyStrip (s : String) : String :=
  String.mk (pyStripL s.toList)

/-- Worker for Python's argument-less `str.split()`: accumulate the current
token (in reverse) and emit it whenever a whitespace character or the end of
the input is reached; empty tokens are never emitted. -/
def splitWsAux : List Char → List Char → List (List Char)
  | [], acc => if acc.isEmpty then [] else [acc.reverse]
  | c :: cs, acc =>
    if isPySpace c then
      if acc.isEmpty then splitWsAux cs [] else acc.reverse :: splitWsAux cs []
    else
      splitWsAux cs (c :: acc)

/-- Python `str.split()` with no argument: split on runs of whitespace,
dropping empty pieces. -/
def pySplitL (s : List Char) : List (List Char) :=
  splitWsAux s []

/-- Python `" ".join(tokens)`. -/
def joinSp : List (List Char) → List Char
  | [] => []
  | [t] => t
  | t :: t' :: ts => t ++ ' ' :: joinSp (t' :: ts)

/-- Python `"\n".join(lines)`. -/
def joinNl : List (List Char) → List Char
  | [] => []
  | [t] => t
  | t :: t' :: ts => t ++ '\n' :: joinNl (t' :: ts)

/-- Worker for Python `str.split(sep)` with a one-character separator: split at
every occurrence of the separator, keeping empty pieces. -/
def splitOnCharAux (sep : Char) : List Char → List Char → List (List Char)
  | [], acc => [acc.reverse]
  | c :: cs, acc =>
    if c = sep then acc.reverse :: splitOnCharAux sep cs []
    else splitOnCharAux sep cs (c :: acc)

/-- Python `str.split(sep)` with a one-character separator. -/
def splitOnChar (sep : Char) (l : List Char) : List (List Char) :=
  splitOnCharAux sep l []

/-- Python substring membership `needle in hay`. -/
def containsSub (needle : List Char) : List Char → Bool
  | [] => needle.isEmpty
  | c :: t => needle.isPrefixOf (c :: t) || containsSub needle t

end LegalDoc

namespace DocumentProcessor

open LegalDoc

/-- Typed extraction errors of the spec's Text Extractor contract
(`UnsupportedFormat` for an unrecognised media type, `ExtractionFailure` for a
format-specific parse error). In the source these are the `ValueError` raised
by the dispatch of `extract_text` and the `Exception` re-raised by
`_extract_from_pdf` / `_extract_from_docx` / `_extract_from_txt`. -/
inductive ExtractErr where
  | UnsupportedFormat (mediaType : String)
  | ExtractionFailure (msg : String)
deriving DecidableEq

/-- An uploaded file as the processor observes it: a declared media type, a
byte size, and the outcome each format-specific extractor would produce on its
contents.  The three `Except` fields abstract the external parsing libraries
(PyPDF2, python-docx, byte decoding): `.ok text` models a successful parse and
`.error msg` models the wrapped exception raised by the corresponding
`_extract_from_*` helper. -/
structure UploadedFile where
  mediaType : String
  size : Nat
  pdfResult : Except String String
  docxResult : Except String String
  txtResult : Except String String
deriving DecidableEq

/-- The media-type dispatch inside `extract_text` (document_processor.py lines
12-22), before the surrounding `try/except`: route to the format-specific
extractor, raising `UnsupportedFormat` for any other declared media type and
`ExtractionFailure` when the chosen extractor fails. -/
def extractTextCore (f : UploadedFile) : Except ExtractErr String :=
  if f.mediaType = "application/pdf" then
    f.pdfResult.mapError ExtractErr.ExtractionFailure
  else if f.mediaType = "application/vnd.openxmlformats-officedocument.wordprocessingml.document"
      ∨ f.mediaType = "application/msword" then
    f.docxResult.mapError ExtractErr.ExtractionFailure
  else if f.mediaType = "text/plain" then
    f.txtResult.mapError ExtractErr.ExtractionFailure
  else
    Except.error (ExtractErr.UnsupportedFormat f.mediaType)

/-- `extract_text` as its caller sees it: the whole dispatch runs inside
`try: ... except Exception: st.error(...); return ""`, so every error —
unsupported media type or extraction failure — is swallowed and the empty
string is returned. -/
def extract_text (f : UploadedFile) : String :=
  match extractTextCore f with
  | Except.ok text => text
  | Except.error _ => ""

/-- The supported media types of `validate_file`. -/
def supported_types : List String :=
  ["application/pdf",
   "application/vnd.openxmlformats-officedocument.wordprocessingml.document",
   "application/msword",
   "text/plain"]

/-- `validate_file`: reject when the declared media type is unsupported, then
when the size exceeds 50 MB, otherwise accept.  Only the declared media type
and the byte size are inspected — no file content is read.  The source
compares `size / (1024*1024)` as a float against 50; division of an integer by
the power of two 1048576 is exact in binary floating point, so the comparison
is equivalent to `size > 50 * 1024 * 1024` over the integers.  The numeric
formatting inside the size message is abstracted. -/
def validate_file (mediaType : String) (size : Nat) : Bool × String :=
  if mediaType ∉ supported_types then
    (false, "Unsupported file type: " ++ mediaType)
  else if size > 50 * 1024 * 1024 then
    (false, "File size exceeds limit of 50 MB")
  else
    (true, "File is valid")

/-- `preprocess_text` on characters: empty input is returned as is; otherwise
collapse whitespace runs by splitting and rejoining with single spaces, delete
null characters, delete Unicode replacement characters, and strip. -/
def preprocessL (s : List Char) : List Char :=
  if s.isEmpty then []
  else
    pyStripL (((joinSp (pySplitL s)).filter (fun c => !(c == '\x00'))).filter
      (fun c => !(c == '�')))

/-- `preprocess_text` at the `String` level. -/
def preprocess_text (s : String) : String :=
  String.mk (preprocessL s.toList)

end DocumentProcessor

namespace GeminiAnalyzer

open LegalDoc

/-- Python `text[:n]` (slicing by code points). -/
def pyTake (n : Nat) (s : String) : String :=
  String.mk (s.toList.take n)

/-- The fixed part of the analysis prompt built by `_create_analysis_prompt`
(gemini_analyzer.py lines 53-81), with the user-chosen analysis type, detail
level and the first 8000 characters of the document text interpolated.  The
stray `# Limit text to avoid token limits` is literal text inside the source
f-string, so it is part of the prompt. -/
def basePromptOf (text analysis_type complexity_level : String) : String :=
  "\n        You are an expert legal analyst. Please analyze the following legal document text thoroughly.\n        \n        Analysis Type: "
    ++ analysis_type
    ++ "\n        Detail Level: "
    ++ complexity_level
    ++ "\n        \n        Document Text:\n        "
    ++ pyTake 8000 text
    ++ "  # Limit text to avoid token limits\n        \n        Please provide a comprehensive analysis including:\n        \n        1. DOCUMENT SUMMARY: A clear, concise summary of the document's purpose and main content\n        \n        2. KEY POINTS: Extract and list the most important points, clauses, or provisions\n        \n        3. LEGAL INSIGHTS: Provide insights about:\n           - Document complexity (score 1-10)\n           - Legal areas involved\n           - Potential risks or concerns\n           - Document tone/sentiment\n           - Important dates or deadlines mentioned\n        \n        4. SIMPLIFIED EXPLANATION: Explain the document in plain English for non-lawyers\n        \n        5. RECOMMENDATIONS: Suggest actions or considerations for the reader\n        \n        Please format your response clearly with headers and bullet points where appropriate.\n        Make sure your analysis is practical and actionable.\n        "

/-- The block appended for the Risk Assessment analysis type
(gemini_analyzer.py lines 84-92). -/
def riskFocusBlock : String :=
  "\n            \n            SPECIAL FOCUS: Pay particular attention to:\n            - Potential legal risks\n            - Liability issues\n            - Compliance requirements\n            - Financial obligations\n            - Termination clauses\n            "

/-- The block appended for the Key Points Extraction analysis type
(gemini_analyzer.py lines 95-102). -/
def keyPointsFocusBlock : String :=
  "\n            \n            SPECIAL FOCUS: Emphasize:\n            - Critical clauses and provisions\n            - Rights and obligations\n            - Important definitions\n            - Performance requirements\n            "

/-- The focus block appended by `_create_analysis_prompt` as a function of the
analysis type: non-empty exactly for Risk Assessment and Key Points
Extraction. -/
def focusBlockOf (analysis_type : String) : String :=
  if analysis_type = "Risk Assessment" then riskFocusBlock
  else if analysis_type = "Key Points Extraction" then keyPointsFocusBlock
  else ""

/-- `_create_analysis_prompt`: the base prompt followed by the type-specific
focus block (if any). -/
def createAnalysisPrompt (text analysis_type complexity_level : String) : String :=
  basePromptOf text analysis_type complexity_level ++ focusBlockOf analysis_type

/-- The `insights` mapping built by `_process_section` / `_generate_basic_insights`:
a Python dict with recognised optional keys.  A field is `none` exactly when
the corresponding key is absent from the dict. -/
structure Insights where
  complexity_score : Option Nat := none
  legal_areas : Option (List String) := none
  sentiment : Option String := none
  word_count : Option Nat := none
  character_count : Option Nat := none
  complexity_level : Option String := none
  estimated_reading_time : Option String := none
deriving DecidableEq, Repr

/-- Python truthiness of the insights dict: empty means no key was ever set. -/
def Insights.isEmpty (i : Insights) : Bool :=
  i.complexity_score.isNone && i.legal_areas.isNone && i.sentiment.isNone
    && i.word_count.isNone && i.character_count.isNone
    && i.complexity_level.isNone && i.estimated_reading_time.isNone

/-- `_generate_basic_insights` (gemini_analyzer.py lines 216-230): word count,
character count, a clamped heuristic complexity score, its thresholded level,
and an estimated reading time, all computed deterministically from the text.
`/` is `Nat` division, matching Python `//` on non-negative operands. -/
def generate_basic_insights (text : String) : Insights :=
  let chars := text.toList
  let word_count := (pySplitL chars).length
  let char_count := chars.length
  let complexity_score :=
    min 10 (max 1 (word_count / 500 + (chars.filter Char.isUpper).length / 100))
  { word_count := some word_count,
    character_count := some char_count,
    complexity_score := some complexity_score,
    complexity_level := some (if complexity_score ≤ 3 then "Low"
      else if complexity_score ≤ 7 then "Medium" else "High"),
    estimated_reading_time := some (toString (word_count / 200 + 1) ++ " minutes") }

/-- The five sections the response parser recognises. -/
inductive RSection where
  | summary
  | key_points
  | insights
  | simplified
  | recommendations
deriving DecidableEq, Repr

/-- Does the uppercased line contain any of the given header synonyms
(Python `any(header in line.upper() for header in hs)`)? -/
def upperContainsAny (line : List Char) (hs : List String) : Bool :=
  hs.any (fun h => containsSub h.toList (line.map Char.toUpper))

/-- The header-synonym dispatch of `_parse_analysis_response` (lines 128-152),
in source order; the first matching synonym set wins. -/
def classifyHeader (line : List Char) : Option RSection :=
  if upperContainsAny line ["SUMMARY", "DOCUMENT SUMMARY"] then some RSection.summary
  else if upperContainsAny line ["KEY POINTS", "MAIN POINTS"] then some RSection.key_points
  else if upperContainsAny line ["INSIGHTS", "LEGAL INSIGHTS"] then some RSection.insights
  else if upperContainsAny line ["SIMPLIFIED", "PLAIN ENGLISH"] then some RSection.simplified
  else if upperContainsAny line ["RECOMMENDATIONS", "SUGGESTIONS"] then some RSection.recommendations
  else none

/-- Characters stripped from the front of a bullet line:
Python `line.lstrip('-•* 0123456789.')`. -/
def bulletStripChars : List Char :=
  ['-', '•', '*', ' ', '0', '1', '2', '3', '4', '5', '6', '7', '8', '9', '.']

/-- One line of the key_points / recommendations extraction: a line opening
with a bullet marker or a digit has its leading bullet/digit/punctuation run
stripped; any other line whose strip is non-empty is kept verbatim.  Buffered
content lines are never empty (the parser only buffers non-empty stripped
lines), so the `[]` case is unreachable; it is modelled as a skip. -/
def pointOf (l : List Char) : Option (List Char) :=
  match l with
  | [] => none
  | c :: _ =>
    if c = '-' ∨ c = '•' ∨ c = '*' ∨ c.isDigit then
      some (l.dropWhile (fun ch => ch ∈ bulletStripChars))
    else if pyStripL l ≠ [] then some l
    else none

/-- The key_points / recommendations branch of `_process_section`: extract the
points, then strip each and drop the empties. -/
def extractPoints (content : List (List Char)) : List String :=
  (((content.filterMap pointOf).map pyStripL).filter (fun p => p ≠ [])).map String.mk

/-- One line of the insights branch of `_process_section` (lines 186-199):
three independent checks, each overwriting its key whenever it fires (so the
last matching line wins). -/
def stepInsights (ins : Insights) (l : List Char) : Insights :=
  let low := l.map Char.toLower
  let ins1 :=
    if containsSub "complexity".toList low && l.any Char.isDigit then
      match l.find? Char.isDigit with
      | some c => { ins with complexity_score := some (c.toNat - 48) }
      | none => ins
    else ins
  let ins2 :=
    if containsSub "legal area".toList low || containsSub "area".toList low then
      let areas := (((splitOnChar ',' l).map pyStripL).filter (fun a => a ≠ [])).map String.mk
      { ins1 with legal_areas := some areas }
    else ins1
  if containsSub "sentiment".toList low || containsSub "tone".toList low then
    let sval :=
      if l.contains ':' then String.mk (pyStripL ((splitOnChar ':' l).getLastD []))
      else "Neutral"
    { ins2 with sentiment := some sval }
  else ins2

/-- The five typed fields the parser fills in
(`result` of `_parse_analysis_response` minus `raw_analysis`). -/
structure SectionFields where
  summary : String := ""
  key_points : List String := []
  insights : Insights := {}
  simplified_explanation : String := ""
  recommendations : List String := []
deriving DecidableEq, Repr

/-- `_process_section`: flush a buffered section into the result.  The
insights branch rebuilds the mapping from scratch and then overwrites
`result.insights` wholesale. -/
def processSection (r : SectionFields) (sec : RSection) (content : List (List Char)) :
    SectionFields :=
  match sec with
  | RSection.summary => { r with summary := String.mk (pyStripL (joinNl content)) }
  | RSection.key_points => { r with key_points := extractPoints content }
  | RSection.insights => { r with insights := content.foldl stepInsights {} }
  | RSection.simplified =>
      { r with simplified_explanation := String.mk (pyStripL (joinNl content)) }
  | RSection.recommendations => { r with recommendations := extractPoints content }

/-- The loop state of `_parse_analysis_response`: the partial result, the
current-section pointer and the buffered content lines. -/
structure ParseState where
  result : SectionFields := {}
  current_section : Option RSection := none
  current_content : List (List Char) := []
deriving DecidableEq, Repr

/-- Flush the buffer into the current section when both are non-empty
(Python `if current_section and current_content`). -/
def flushState (st : ParseState) : SectionFields :=
  match st.current_section with
  | some sec => if st.current_content ≠ [] then processSection st.result sec st.current_content
      else st.result
  | none => st.result

/-- One iteration of the line loop of `_parse_analysis_response` (lines
124-154): strip the line; on a header match flush the buffer and switch
section; otherwise buffer the line when it is non-empty and does not start
with a `#` character; otherwise do nothing. -/
def parseStep (st : ParseState) (rawLine : List Char) : ParseState :=
  let line := pyStripL rawLine
  match classifyHeader line with
  | some sec => { result := flushState st, current_section := some sec, current_content := [] }
  | none =>
    if line ≠ [] ∧ line.head? ≠ some '#' then
      { st with current_content := st.current_content ++ [line] }
    else st

/-- The section contents recovered from a reply: run the line loop over the
newline-split reply, then flush the final open section. -/
def parsedSections (response_text : String) : SectionFields :=
  flushState ((splitOnChar '\n' response_text.toList).foldl parseStep {})

/-- The analysis record returned by `analyze_document`.  Keys that the error
dict of the `except` branch omits (`simplified_explanation`, `raw_analysis`)
are optional; `error` is present exactly on the error path. -/
structure AnalyzeResult where
  error : Option String := none
  summary : String
  key_points : List String
  insights : Insights
  simplified_explanation : Option String := none
  recommendations : List String
  raw_analysis : Option String := none
deriving DecidableEq, Repr

/-- `_parse_analysis_response` (lines 106-164): structure the reply, fall back
to `_generate_basic_insights` over the ORIGINAL document text when the
extracted insights mapping is empty, and keep the verbatim reply as
`raw_analysis`. -/
def parse_analysis_response (response_text original_text : String) : AnalyzeResult :=
  let r := parsedSections response_text
  { summary := r.summary,
    key_points := r.key_points,
    insights := if r.insights.isEmpty then generate_basic_insights original_text
      else r.insights,
    simplified_explanation := some r.simplified_explanation,
    recommendations := r.recommendations,
    raw_analysis := some response_text }

/-- The error dict returned by the `except` branch of `analyze_document`
(lines 40-48). -/
def errorResult (msg : String) : AnalyzeResult :=
  { error := some msg,
    summary := "Analysis failed due to an error.",
    key_points := [],
    insights := {},
    recommendations := [] }

/-- `analyze_document` (lines 20-48) with the external AI call abstracted as
its outcome: `none` models a call that raised, `some reply` a call that
returned `reply`.  An empty reply raises inside the `try` and is caught by the
same `except`, so both failure modes yield the error dict; the function itself
never raises. -/
def analyze_document (aiReply : Option String) (text analysis_type complexity_level : String) :
    AnalyzeResult :=
  match aiReply with
  | none => errorResult "AI service call raised an exception"
  | some reply =>
    if reply = "" then errorResult "Empty response from Gemini API"
    else parse_analysis_response reply text

end GeminiAnalyzer

namespace App

open GeminiAnalyzer

/-- The advanced-option toggles recorded by the analysis page. -/
structure AdvancedOptions where
  entities : Bool
  risks : Bool
  timeline : Bool
deriving DecidableEq, Repr

/-- The analysis record as stored by the update block of app.py (lines
217-243): the fields of the `analyze_document` result plus the bookkeeping
fields the page adds before the SQL UPDATE. -/
structure StoredAnalysis where
  error : Option String := none
  summary : String
  key_points : List String
  insights : Insights
  simplified_explanation : Option String := none
  recommendations : List String
  raw_analysis : Option String := none
  analyzed : Bool
  analysis_date : String
  analysis_type : String
  complexity_level : String
  advanced_options : AdvancedOptions
deriving DecidableEq, Repr

/-- The analysis update block of app.py (lines 217-243): run
`analyze_document`, unconditionally mark the result `analyzed = true`, attach
the bookkeeping fields, and overwrite the document's stored analysis with it.
`stored` is the document's prior analysis record; the block never consults it
— the UPDATE replaces it wholesale whatever the outcome of the AI call was,
because `analyze_document` catches every exception and returns its error dict
instead of raising. -/
def updateDocumentAnalysis (stored : Option StoredAnalysis) (aiReply : Option String)
    (text analysis_type complexity_level date : String) (opts : AdvancedOptions) :
    Option StoredAnalysis :=
  let r := analyze_document aiReply text analysis_type complexity_level
  let _ := stored
  some { error := r.error,
         summary := r.summary,
         key_points := r.key_points,
         insights := r.insights,
         simplified_explanation := r.simplified_explanation,
         recommendations := r.recommendations,
         raw_analysis := r.raw_analysis,
         analyzed := true,
         analysis_date := date,
         analysis_type := analysis_type,
         complexity_level := complexity_level,
         advanced_options := opts }

end App

open LegalDoc DocumentProcessor GeminiAnalyzer App

/-- A prior successful-looking stored analysis record, used to exhibit the
overwrite-on-failure behaviour of the analysis update block. -/
def priorRecord : StoredAnalysis :=
  { error := none,
    summary := "Prior summary of the contract.",
    key_points := ["old point"],
    insights := { complexity_score := some 5 },
    simplified_explanation := some "prior plain-English explanation",
    recommendations := ["old recommendation"],
    raw_analysis := some "prior raw reply",
    analyzed := true,
    analysis_date := "2024-01-01 09:00:00",
    analysis_type := "Comprehensive Analysis",
    complexity_level := "Intermediate",
    advanced_options := ⟨true, true, false⟩ }

/-- An upload with an unsupported declared media type. -/
def pngFile : UploadedFile :=
  { mediaType := "image/png",
    size := 4,
    pdfResult := Except.ok "p",
    docxResult := Except.ok "d",
    txtResult := Except.ok "t" }

/-- An upload whose declared type is PDF but whose stream the PDF library
rejects. -/
def corruptPdfFile : UploadedFile :=
  { mediaType := "application/pdf",
    size := 4,
    pdfResult := Except.error "Failed to extract text from PDF: corrupt stream",
    docxResult := Except.ok "d",
    txtResult := Except.ok "t" }

/-- claim C2 (counterexample): the claim says a failed AI call leaves the
stored analysis record untouched and records `analyzed = true` only on
success.  On the code, `analyze_document` catches the failure and returns its
error dict, and the update block of app.py still marks it `analyzed = True`
and overwrites the stored record with it: re-running the analysis of a
document holding a prior successful record, with an AI call that raises,
replaces that record by an error-flagged one marked analyzed. -/
theorem claim_C2_counterexample :
    updateDocumentAnalysis (some priorRecord) none "doc text" "Comprehensive Analysis"
        "Intermediate" "2024-02-02 10:00:00" ⟨true, true, false⟩ ≠ some priorRecord ∧
    ∃ r, updateDocumentAnalysis (some priorRecord) none "doc text" "Comprehensive Analysis"
        "Intermediate" "2024-02-02 10:00:00" ⟨true, true, false⟩ = some r ∧
      r.analyzed = true ∧ r.error ≠ none ∧ r.summary = "Analysis failed due to an error." := by
  constructor
  · decide
  · refine ⟨_, rfl, by decide, by decide, by decide⟩

/-- claim C2 (amended): when the external AI call fails or returns an empty
reply, the update block overwrites the stored analysis wholesale — whatever
prior record the document held — with the error-flagged record (error message
set, failure summary, empty key points, insights and recommendations) and
marks it `analyzed = true`. -/
theorem claim_C2_amended (stored : Option StoredAnalysis) (aiReply : Option String)
    (text analysis_type complexity_level date : String) (opts : AdvancedOptions)
    (hfail : aiReply = none ∨ aiReply = some "") :
    ∃ msg, updateDocumentAnalysis stored aiReply text analysis_type complexity_level date opts
      = some { error := some msg,
               summary := "Analysis failed due to an error.",
               key_points := [],
               insights := {},
               simplified_explanation := none,
               recommendations := [],
               raw_analysis := none,
               analyzed := true,
               analysis_date := date,
               analysis_type := analysis_type,
               complexity_level := complexity_level,
               advanced_options := opts } := by
  rcases hfail with rfl | rfl
  · exact ⟨"AI service call raised an exception", rfl⟩
  · exact ⟨"Empty response from Gemini API", rfl⟩

/-- Witness for claim C2 (amended) at a concrete failed run over a document
holding a prior record. -/
theorem claim_C2_amended_witness :
    ∃ msg, updateDocumentAnalysis (some priorRecord) none "doc text" "Summary Only"
        "Basic" "2024-02-02 10:00:00" ⟨false, false, false⟩
      = some { error := some msg,
               summary := "Analysis failed due to an error.",
               key_points := [],
               insights := {},
               simplified_explanation := none,
               recommendations := [],
               raw_analysis := none,
               analyzed := true,
               analysis_date := "2024-02-02 10:00:00",
               analysis_type := "Summary Only",
               complexity_level := "Basic",
               advanced_options := ⟨false, false, false⟩ } :=
  claim_C2_amended (some priorRecord) none "doc text" "Summary Only" "Basic"
    "2024-02-02 10:00:00" ⟨false, false, false⟩ (Or.inl rfl)

/-- claim C3 (counterexample): the claim says `extract_text` either returns
the extracted plain text or signals a typed `UnsupportedFormat` /
`ExtractionFailure` error to its caller.  On the code the dispatch does raise
the typed error, but the surrounding `try/except` of `extract_text` swallows
it and the caller receives the empty string instead: for an `image/png`
upload the internal outcome is `UnsupportedFormat` yet the caller sees `""`,
and likewise a corrupt PDF yields `""`, not a signalled `ExtractionFailure`. -/
theorem claim_C3_counterexample :
    extractTextCore pngFile = Except.error (ExtractErr.UnsupportedFormat "image/png") ∧
    extract_text pngFile = "" ∧
    (∃ msg, extractTextCore corruptPdfFile = Except.error (ExtractErr.ExtractionFailure msg)) ∧
    extract_text corruptPdfFile = "" := by
  exact ⟨by decide, by decide, ⟨"Failed to extract text from PDF: corrupt stream", by decide⟩,
    by decide⟩

/-- claim C3 (amended): the media-type dispatch inside `extract_text` either
produces the extracted plain text or raises `UnsupportedFormat` (declared
type outside pdf / docx / msword / plain text) or `ExtractionFailure`
(format-specific parse error); `extract_text` itself catches these typed
errors and returns the empty string to its caller. -/
theorem claim_C3_amended (f : UploadedFile) :
    (f.mediaType ∉ supported_types →
      extractTextCore f = Except.error (ExtractErr.UnsupportedFormat f.mediaType)) ∧
    (∀ msg, f.mediaType = "application/pdf" → f.pdfResult = Except.error msg →
      extractTextCore f = Except.error (ExtractErr.ExtractionFailure msg)) ∧
    (∀ t, extractTextCore f = Except.ok t → extract_text f = t) ∧
    (∀ e, extractTextCore f = Except.error e → extract_text f = "") := by
  refine ⟨?_, ?_, ?_, ?_⟩
  · intro hns
    simp only [supported_types, List.mem_cons, List.mem_singleton, not_or] at hns
    obtain ⟨h1, h2, h3, h4, -⟩ := hns
    simp [extractTextCore, h1, h2, h3, h4]
  · intro msg hty herr
    simp [extractTextCore, hty, herr, Except.mapError]
  · intro t hok
    simp [extract_text, hok]
  · intro e herr
    simp [extract_text, herr]

/-- Witness for claim C3 (amended): the unsupported png upload raises
`UnsupportedFormat` internally, and the caller of `extract_text` receives the
empty string for the corrupt PDF. -/
theorem claim_C3_amended_witness :
    extractTextCore pngFile = Except.error (ExtractErr.UnsupportedFormat "image/png") ∧
    extract_text corruptPdfFile = "" :=
  ⟨(claim_C3_amended pngFile).1 (by decide),
   (claim_C3_amended corruptPdfFile).2.2.2
     (ExtractErr.ExtractionFailure "Failed to extract text from PDF: corrupt stream")
     (by decide)⟩

/-- claim C10: `extract_text` never propagates an error to its caller: every
outcome of the dispatch that is not a successful extraction — an unsupported
declared media type as well as any format-specific extraction failure — is
caught and turned into the empty string, and a successful extraction is
returned as is.  The function is total, so no exception can escape it. -/
theorem claim_C10 (f : UploadedFile) :
    (f.mediaType ∉ supported_types → extract_text f = "") ∧
    (∀ e, extractTextCore f = Except.error e → extract_text f = "") ∧
    (∀ t, extractTextCore f = Except.ok t → extract_text f = t) := by
  refine ⟨?_, ?_, ?_⟩
  · intro hns
    simp only [supported_types, List.mem_cons, List.mem_singleton, not_or] at hns
    obtain ⟨h1, h2, h3, h4, -⟩ := hns
    simp [extract_text, extractTextCore, h1, h2, h3, h4]
  · intro e herr
    simp [extract_text, herr]
  · intro t hok
    simp [extract_text, hok]

/-- Witness for claim C10 at the unsupported png upload and the corrupt
PDF upload. -/
theorem claim_C10_witness :
    extract_text pngFile = "" ∧ extract_text corruptPdfFile = "" :=
  ⟨(claim_C10 pngFile).1 (by decide),
   (claim_C10 corruptPdfFile).2.1
     (ExtractErr.ExtractionFailure "Failed to extract text from PDF: corrupt stream")
     (by decide)⟩

/-- claim C8: `validate_file` rejects exactly the uploads whose declared media
type is outside the supported set or whose size exceeds 50 MB, with a
non-empty failure message, and accepts everything else.  It is a function of
the declared media type and the byte size alone — it takes no file content,
so rejection happens with zero bytes read, before any extraction. -/
theorem claim_C8 (mediaType : String) (size : Nat) :
    ((validate_file mediaType size).1 = false ↔
      (mediaType ∉ supported_types ∨ size > 50 * 1024 * 1024)) ∧
    ((validate_file mediaType size).1 = false → (validate_file mediaType size).2 ≠ "") ∧
    ((validate_file mediaType size).1 = true → (validate_file mediaType size).2 = "File is valid") := by
  have hmsg : ("Unsupported file type: " ++ mediaType) ≠ "" := by
    intro h
    have h2 := congrArg String.length h
    rw [String.length_append] at h2
    have h3 : ("Unsupported file type: ").length = 23 := rfl
    have h4 : ("" : String).length = 0 := rfl
    rw [h3, h4] at h2
    omega
  unfold validate_file
  by_cases hm : mediaType ∈ supported_types
  · by_cases hs : size > 50 * 1024 * 1024
    · simp [hm, hs]
    · simp [hm, hs]
  · simp [hm, hmsg]

/-- Witness for claim C8: an `image/png` upload is rejected with a message,
before any bytes of the upload are consumed. -/
theorem claim_C8_witness :
    (validate_file "image/png" 123).1 = false ∧ (validate_file "image/png" 123).2 ≠ "" :=
  ⟨((claim_C8 "image/png" 123).1).mpr (Or.inl (by decide)),
   (claim_C8 "image/png" 123).2.1 (((claim_C8 "image/png" 123).1).mpr (Or.inl (by decide)))⟩

/-- claim C9: a line that strips to a non-empty string starting with the
character `#` and matching no section-header synonym leaves the parser state
unchanged — it is never buffered, so it can never reach any section of the
result; consequently deleting every such line from the reply leaves the
line-loop result identical. -/
theorem claim_C9 (st : ParseState) (rawLine : List Char)
    (hne : pyStripL rawLine ≠ [])
    (hhash : (pyStripL rawLine).head? = some '#')
    (hhdr : classifyHeader (pyStripL rawLine) = none) :
    parseStep st rawLine = st ∧
    ∀ (st0 : ParseState) (pre post : List (List Char)),
      List.foldl parseStep st0 (pre ++ rawLine :: post)
        = List.foldl parseStep st0 (pre ++ post) := by
  have hstep : ∀ s : ParseState, parseStep s rawLine = s := by
    intro s
    simp only [parseStep, hhdr]
    simp [hne, hhash]
  refine ⟨hstep st, ?_⟩
  intro st0 pre post
  rw [List.foldl_append, List.foldl_append, List.foldl_cons, hstep]

/-- Witness for claim C9 at a concrete markdown-noise line. -/
theorem claim_C9_witness :
    parseStep {} "# hidden markdown note".toList = {} :=
  (claim_C9 {} "# hidden markdown note".toList (by decide) (by decide) (by decide)).1

/-- claim C6: whenever the line loop extracts no insights at all, the
structurer populates the insights of its result with the fallback estimator
applied to the original document text, not to the reply; and the insights of
a structured result are never empty. -/
theorem claim_C6 (response_text original_text : String) :
    ((parsedSections response_text).insights.isEmpty = true →
      (parse_analysis_response response_text original_text).insights
        = generate_basic_insights original_text) ∧
    (parse_analysis_response response_text original_text).insights.isEmpty = false := by
  have heq : (parse_analysis_response response_text original_text).insights
      = if (parsedSections response_text).insights.isEmpty
          then generate_basic_insights original_text
          else (parsedSections response_text).insights := rfl
  have hb : ∀ s : String, (generate_basic_insights s).isEmpty = false := by
    intro s
    simp [generate_basic_insights, Insights.isEmpty]
  constructor
  · intro h
    rw [heq, if_pos h]
  · rw [heq]
    by_cases h : (parsedSections response_text).insights.isEmpty
    · rw [if_pos h]
      exact hb original_text
    · rw [if_neg h]
      simpa using h

/-- Witness for claim C6: a reply carrying only Summary, Key Points and
Recommendations sections extracts no insights, so the result's insights are
the fallback estimator's output over the original document text. -/
theorem claim_C6_witness :
    (parsedSections "SUMMARY:\nThe contract binds both parties.\nKEY POINTS:\n- first clause\nRECOMMENDATIONS:\n- check the deadline").insights.isEmpty = true ∧
    (parse_analysis_response "SUMMARY:\nThe contract binds both parties.\nKEY POINTS:\n- first clause\nRECOMMENDATIONS:\n- check the deadline" "Hello world").insights
      = generate_basic_insights "Hello world" :=
  ⟨by decide,
   (claim_C6 "SUMMARY:\nThe contract binds both parties.\nKEY POINTS:\n- first clause\nRECOMMENDATIONS:\n- check the deadline" "Hello world").1 (by decide)⟩

/-- claim C7: the analysis prompt depends only on the first 8000 characters
of the document text (the builder truncates there), it is the base prompt
followed by the type-specific focus block, and that block is non-empty
exactly for the Risk Assessment and Key Points Extraction selectors.  The
builder is a pure function of its three arguments, hence deterministic. -/
theorem claim_C7 (text analysis_type complexity_level : String) :
    createAnalysisPrompt text analysis_type complexity_level
      = createAnalysisPrompt (pyTake 8000 text) analysis_type complexity_level ∧
    createAnalysisPrompt text analysis_type complexity_level
      = basePromptOf text analysis_type complexity_level ++ focusBlockOf analysis_type ∧
    (focusBlockOf analysis_type ≠ "" ↔
      (analysis_type = "Risk Assessment" ∨ analysis_type = "Key Points Extraction")) := by
  refine ⟨?_, rfl, ?_⟩
  · unfold createAnalysisPrompt basePromptOf
    have : pyTake 8000 (pyTake 8000 text) = pyTake 8000 text := by
      unfold pyTake
      simp [List.take_take]
    rw [this]
  · unfold focusBlockOf
    by_cases h1 : analysis_type = "Risk Assessment"
    · simp [h1]
      decide
    · by_cases h2 : analysis_type = "Key Points Extraction"
      · simp [h1, h2]
        decide
      · simp [h1, h2]

/-- Witness for claim C7: the Risk Assessment selector gets a non-empty focus
block. -/
theorem claim_C7_witness :
    focusBlockOf "Risk Assessment" ≠ "" :=
  ((claim_C7 "some text" "Risk Assessment" "Basic").2.2).mpr (Or.inl rfl)

/-- claim C1 (counterexample): the claim says any reply containing the line
`Legal Insights: complexity 7, area Contract Law, Tort` yields
`complexity_score = 7` and `legal_areas` from the comma-split of that line.
On the code that line contains the header synonym `INSIGHTS`, so the parser
consumes it as the Insights section header and discards its payload: for a
reply consisting of exactly that line (original text empty), the insights come
from the fallback estimator instead — score 1 and no legal areas at all. -/
theorem claim_C1_counterexample :
    (parse_analysis_response "Legal Insights: complexity 7, area Contract Law, Tort" "").insights.complexity_score ≠ some 7 ∧
    (parse_analysis_response "Legal Insights: complexity 7, area Contract Law, Tort" "").insights.complexity_score = some 1 ∧
    (parse_analysis_response "Legal Insights: complexity 7, area Contract Law, Tort" "").insights.legal_areas = none := by
  refine ⟨by decide, by decide, by decide⟩

/-- claim C1 (amended): the fixture line is consumed as the Insights section
header, contributing no insights itself (with nothing else, the fallback over
the original text fills them in); when its payload
`complexity 7, area Contract Law, Tort` instead appears as a content line of
the Insights section, the structurer sets `complexity_score = 7` (the first
digit of the line) and `legal_areas` to the trimmed non-empty comma-split
pieces of that content line, `["complexity 7", "area Contract Law", "Tort"]`. -/
theorem claim_C1_amended :
    (parse_analysis_response "Legal Insights: complexity 7, area Contract Law, Tort" "").insights
      = generate_basic_insights "" ∧
    (parse_analysis_response "Legal Insights:\ncomplexity 7, area Contract Law, Tort" "").insights.complexity_score
      = some 7 ∧
    (parse_analysis_response "Legal Insights:\ncomplexity 7, area Contract Law, Tort" "").insights.legal_areas
      = some ["complexity 7", "area Contract Law", "Tort"] := by
  refine ⟨by decide, by decide, by decide⟩

/-- A whitespace character passes neither the uppercase test nor any token
boundary: needed to relate a zero word count to a zero uppercase count. -/
theorem isPySpace_not_upper (c : Char) (h : isPySpace c = true) : c.isUpper = false := by
  have h2 : c = ' ' ∨ c = '\t' ∨ c = '\n' ∨ c = '\x0b' ∨ c = '\x0c' ∨ c = '\r' :=
    of_decide_eq_true h
  rcases h2 with rfl | rfl | rfl | rfl | rfl | rfl <;> decide

/-- If the whitespace splitter emits no token, the accumulator was empty and
every character of the input is whitespace. -/
theorem splitWsAux_eq_nil (s : List Char) :
    ∀ acc, splitWsAux s acc = [] → acc = [] ∧ ∀ c ∈ s, isPySpace c = true := by
  induction s with
  | nil =>
    intro acc h
    cases acc with
    | nil => exact ⟨rfl, by simp⟩
    | cons a as => simp [splitWsAux] at h
  | cons c cs ih =>
    intro acc h
    by_cases hc : isPySpace c = true
    · cases acc with
      | nil =>
        simp only [splitWsAux, hc, if_true, List.isEmpty_nil] at h
        obtain ⟨-, hall⟩ := ih [] h
        refine ⟨rfl, ?_⟩
        intro x hx
        rcases List.mem_cons.mp hx with rfl | hx
        · exact hc
        · exact hall x hx
      | cons a as =>
        simp [splitWsAux, hc] at h
    · have hc' : isPySpace c = false := by simpa using hc
      simp only [splitWsAux, hc', if_false, Bool.false_eq_true] at h
      obtain ⟨habs, -⟩ := ih (c :: acc) h
      exact absurd habs (by simp)

/-- A text with zero whitespace-split tokens contains no uppercase letter. -/
theorem upper_count_zero (s : List Char) (h : pySplitL s = []) :
    (s.filter Char.isUpper).length = 0 := by
  obtain ⟨-, hall⟩ := splitWsAux_eq_nil s [] h
  rw [List.length_eq_zero, List.filter_eq_nil_iff]
  intro a ha
  simp [isPySpace_not_upper a (hall a ha)]

/-- claim C5: the fallback insight estimator deterministically returns the
whitespace-split token count as `word_count`, the character count of the
text, the clamped score `min 10 (max 1 (word_count/500 + uppercase_count/100))`
under integer division, the thresholded level (at most 3 gives Low, at most 7
gives Medium, else High), and `(word_count/200 + 1) minutes` as reading time;
when the word count is zero the score clamps to 1, the level is Low and the
reading time is `1 minutes`.  It is a total function of the text, so it never
fails. -/
theorem claim_C5 (text : String) :
    (generate_basic_insights text).word_count = some ((pySplitL text.toList).length) ∧
    (generate_basic_insights text).character_count = some text.toList.length ∧
    (generate_basic_insights text).complexity_score
      = some (min 10 (max 1 ((pySplitL text.toList).length / 500
          + (text.toList.filter Char.isUpper).length / 100))) ∧
    (generate_basic_insights text).complexity_level
      = some (if min 10 (max 1 ((pySplitL text.toList).length / 500
            + (text.toList.filter Char.isUpper).length / 100)) ≤ 3 then "Low"
          else if min 10 (max 1 ((pySplitL text.toList).length / 500
            + (text.toList.filter Char.isUpper).length / 100)) ≤ 7 then "Medium"
          else "High") ∧
    (generate_basic_insights text).legal_areas = none ∧
    (generate_basic_insights text).sentiment = none ∧
    (generate_basic_insights text).estimated_reading_time
      = some (toString ((pySplitL text.toList).length / 200 + 1) ++ " minutes") ∧
    ((pySplitL text.toList).length = 0 →
      (generate_basic_insights text).complexity_score = some 1 ∧
      (generate_basic_insights text).complexity_level = some "Low" ∧
      (generate_basic_insights text).estimated_reading_time = some "1 minutes") := by
  refine ⟨rfl, rfl, rfl, rfl, rfl, rfl, rfl, ?_⟩
  intro h0
  have hnil : pySplitL text.toList = [] := List.length_eq_zero.mp h0
  have hup := upper_count_zero text.toList hnil
  refine ⟨?_, ?_, ?_⟩
  · show some (min 10 (max 1 ((pySplitL text.toList).length / 500
        + (text.toList.filter Char.isUpper).length / 100))) = some 1
    rw [hnil, hup]
    decide
  · show some (if min 10 (max 1 ((pySplitL text.toList).length / 500
          + (text.toList.filter Char.isUpper).length / 100)) ≤ 3 then "Low"
        else if min 10 (max 1 ((pySplitL text.toList).length / 500
          + (text.toList.filter Char.isUpper).length / 100)) ≤ 7 then "Medium"
        else "High") = some "Low"
    rw [hnil, hup]
    rfl
  · show some (toString ((pySplitL text.toList).length / 200 + 1) ++ " minutes")
      = some "1 minutes"
    rw [hnil]
    rfl

/-- Witness for claim C5 at the empty text, whose word count is zero. -/
theorem claim_C5_witness :
    (pySplitL ("" : String).toList).length = 0 ∧
    (generate_basic_insights "").complexity_score = some 1 ∧
    (generate_basic_insights "").complexity_level = some "Low" ∧
    (generate_basic_insights "").estimated_reading_time = some "1 minutes" := by
  refine ⟨by decide, ?_⟩
  exact (claim_C5 "").2.2.2.2.2.2.2 (by decide)

/-- claim C4 (counterexample): normalization is not idempotent on every
string: deleting a null character after whitespace collapsing can leave a
double space that only a second pass collapses. -/
theorem claim_C4_counterexample :
    preprocess_text (preprocess_text "a \x00 b") ≠ preprocess_text "a \x00 b" := by
  decide

/-- Pushing a run of non-whitespace characters through the splitter moves it
into the accumulator. -/
theorem splitWsAux_append (t rest acc : List Char)
    (h : ∀ c ∈ t, isPySpace c = false) :
    splitWsAux (t ++ rest) acc = splitWsAux rest (t.reverse ++ acc) := by
  induction t generalizing acc with
  | nil => simp
  | cons c cs ih =>
    have hc : isPySpace c = false := h c (List.mem_cons_self c cs)
    have hcs : ∀ x ∈ cs, isPySpace x = false := fun x hx => h x (List.mem_cons_of_mem c hx)
    simp only [List.cons_append, splitWsAux, hc, Bool.false_eq_true, if_false]
    show splitWsAux (cs ++ rest) (c :: acc) = splitWsAux rest ((c :: cs).reverse ++ acc)
    rw [ih (c :: acc) hcs]
    simp

/-- A member of a reversed list with one element appended is a member of that
element consed onto the list. -/
theorem mem_cons_of_mem_reverse_concat {c a : Char} {as : List Char}
    (hc : c ∈ as.reverse ++ [a]) : c ∈ a :: as := by
  rcases List.mem_append.mp hc with h | h
  · exact List.mem_cons_of_mem a (List.mem_reverse.mp h)
  · rw [List.mem_singleton] at h
    subst h
    exact List.mem_cons_self _ _

/-- Every token the splitter emits is non-empty and free of whitespace,
provided the accumulator is whitespace-free. -/
theorem mem_splitWsAux (s : List Char) :
    ∀ (acc t : List Char), t ∈ splitWsAux s acc →
      (∀ c ∈ acc, isPySpace c = false) →
      t ≠ [] ∧ ∀ c ∈ t, isPySpace c = false := by
  induction s with
  | nil =>
    intro acc t ht hacc
    cases acc with
    | nil => simp [splitWsAux] at ht
    | cons a as =>
      simp [splitWsAux] at ht
      subst ht
      refine ⟨by simp, ?_⟩
      intro c hc
      exact hacc c (mem_cons_of_mem_reverse_concat hc)
  | cons c cs ih =>
    intro acc t ht hacc
    by_cases hc : isPySpace c = true
    · cases acc with
      | nil =>
        simp only [splitWsAux, hc, if_true, List.isEmpty_nil] at ht
        exact ih [] t ht (by simp)
      | cons a as =>
        simp only [splitWsAux, hc, if_true, List.isEmpty_cons] at ht
        rcases List.mem_cons.mp ht with rfl | ht
        · refine ⟨by simp, ?_⟩
          intro x hx
          exact hacc x (List.mem_reverse.mp hx)
        · exact ih [] t ht (by simp)
    · have hc' : isPySpace c = false := by simpa using hc
      simp only [splitWsAux, hc', Bool.false_eq_true, if_false] at ht
      refine ih (c :: acc) t ht ?_
      intro x hx
      rcases List.mem_cons.mp hx with rfl | hx
      · exact hc'
      · exact hacc x hx

/-- Every character of an emitted token comes from the input or from the
accumulator. -/
theorem mem_of_mem_splitWsAux (s : List Char) :
    ∀ (acc t : List Char) (c : Char), t ∈ splitWsAux s acc → c ∈ t →
      c ∈ s ∨ c ∈ acc := by
  induction s with
  | nil =>
    intro acc t c ht hc
    cases acc with
    | nil => simp [splitWsAux] at ht
    | cons a as =>
      simp [splitWsAux] at ht
      subst ht
      exact Or.inr (mem_cons_of_mem_reverse_concat hc)
  | cons x xs ih =>
    intro acc t c ht hc
    by_cases hx : isPySpace x = true
    · cases acc with
      | nil =>
        simp only [splitWsAux, hx, if_true, List.isEmpty_nil] at ht
        rcases ih [] t c ht hc with h | h
        · exact Or.inl (List.mem_cons_of_mem x h)
        · simp at h
      | cons a as =>
        simp only [splitWsAux, hx, if_true, List.isEmpty_cons] at ht
        rcases List.mem_cons.mp ht with rfl | ht
        · exact Or.inr (List.mem_reverse.mp hc)
        · rcases ih [] t c ht hc with h | h
          · exact Or.inl (List.mem_cons_of_mem x h)
          · simp at h
    · have hx' : isPySpace x = false := by simpa using hx
      simp only [splitWsAux, hx', Bool.false_eq_true, if_false] at ht
      rcases ih (x :: acc) t c ht hc with h | h
      · exact Or.inl (List.mem_cons_of_mem x h)
      · rcases List.mem_cons.mp h with rfl | h
        · exact Or.inl (List.mem_cons_self c xs)
        · exact Or.inr h

/-- Every character of a space-joined token list is a token character or a
space. -/
theorem mem_joinSp (ts : List (List Char)) (c : Char) (hc : c ∈ joinSp ts) :
    (∃ t ∈ ts, c ∈ t) ∨ c = ' ' := by
  induction ts with
  | nil => simp [joinSp] at hc
  | cons t ts ih =>
    cases ts with
    | nil =>
      simp only [joinSp] at hc
      exact Or.inl ⟨t, by simp, hc⟩
    | cons t' ts' =>
      simp only [joinSp, List.mem_append, List.mem_cons] at hc
      rcases hc with h | h | h
      · exact Or.inl ⟨t, by simp, h⟩
      · exact Or.inr h
      · rcases ih h with ⟨u, hu, hcu⟩ | h
        · exact Or.inl ⟨u, List.mem_cons_of_mem t hu, hcu⟩
        · exact Or.inr h

/-- Appending one token to a non-empty token list appends a space and that
token to the join. -/
theorem joinSp_concat (X : List (List Char)) (y : List Char) (hX : X ≠ []) :
    joinSp (X ++ [y]) = joinSp X ++ ' ' :: y := by
  induction X with
  | nil => exact absurd rfl hX
  | cons x X ih =>
    cases X with
    | nil => simp [joinSp]
    | cons x' X' =>
      have h := ih (by simp)
      simp only [List.cons_append] at h ⊢
      rw [show joinSp (x :: x' :: (X' ++ [y])) = x ++ ' ' :: joinSp (x' :: (X' ++ [y])) from rfl]
      rw [h]
      simp [joinSp]

/-- The join of the reversed tokens, in reverse order, is the reverse of the
join. -/
theorem reverse_joinSp (ts : List (List Char)) :
    (joinSp ts).reverse = joinSp ((ts.map List.reverse).reverse) := by
  induction ts with
  | nil => simp [joinSp]
  | cons t ts ih =>
    cases ts with
    | nil => simp [joinSp]
    | cons t' ts' =>
      rw [show joinSp (t :: t' :: ts') = t ++ ' ' :: joinSp (t' :: ts') from rfl]
      rw [List.reverse_append, List.reverse_cons, ih]
      rw [show (t :: t' :: ts').map List.reverse
          = t.reverse :: (t' :: ts').map List.reverse from rfl]
      rw [List.reverse_cons]
      rw [joinSp_concat _ t.reverse (by simp)]
      simp

/-- Dropping leading whitespace is the identity on a join of non-empty,
whitespace-free tokens. -/
theorem dropWhile_joinSp (ts : List (List Char))
    (h : ∀ t ∈ ts, t ≠ [] ∧ ∀ c ∈ t, isPySpace c = false) :
    (joinSp ts).dropWhile isPySpace = joinSp ts := by
  cases ts with
  | nil => simp [joinSp]
  | cons t ts' =>
    obtain ⟨hne, hns⟩ := h t (by simp)
    obtain ⟨c, t'', rfl⟩ : ∃ c t'', t = c :: t'' := by
      cases t with
      | nil => exact absurd rfl hne
      | cons a b => exact ⟨a, b, rfl⟩
    have hc : isPySpace c = false := hns c (by simp)
    cases ts' with
    | nil =>
      simp only [joinSp]
      rw [List.dropWhile_cons]
      simp [hc]
    | cons t' ts'' =>
      rw [show joinSp ((c :: t'') :: t' :: ts'')
          = c :: (t'' ++ ' ' :: joinSp (t' :: ts'')) from rfl]
      rw [List.dropWhile_cons]
      simp [hc]

/-- Stripping is the identity on a join of non-empty, whitespace-free
tokens. -/
theorem pyStripL_joinSp (ts : List (List Char))
    (h : ∀ t ∈ ts, t ≠ [] ∧ ∀ c ∈ t, isPySpace c = false) :
    pyStripL (joinSp ts) = joinSp ts := by
  have h' : ∀ t ∈ (ts.map List.reverse).reverse, t ≠ [] ∧ ∀ c ∈ t, isPySpace c = false := by
    intro t ht
    rw [List.mem_reverse, List.mem_map] at ht
    obtain ⟨u, hu, rfl⟩ := ht
    obtain ⟨hne, hns⟩ := h u hu
    refine ⟨by simpa using hne, ?_⟩
    intro c hc
    exact hns c (List.mem_reverse.mp hc)
  unfold pyStripL
  rw [dropWhile_joinSp ts h, reverse_joinSp ts, dropWhile_joinSp _ h', ← reverse_joinSp ts,
    List.reverse_reverse]

/-- Splitting the space-join of non-empty, whitespace-free tokens recovers
exactly those tokens. -/
theorem pySplitL_joinSp (ts : List (List Char))
    (h : ∀ t ∈ ts, t ≠ [] ∧ ∀ c ∈ t, isPySpace c = false) :
    pySplitL (joinSp ts) = ts := by
  induction ts with
  | nil => rfl
  | cons t ts' ih =>
    obtain ⟨hne, hns⟩ := h t (by simp)
    have hrest : ∀ u ∈ ts', u ≠ [] ∧ ∀ c ∈ u, isPySpace c = false :=
      fun u hu => h u (List.mem_cons_of_mem t hu)
    cases ts' with
    | nil =>
      show splitWsAux (joinSp [t]) [] = [t]
      rw [show joinSp [t] = t from rfl, show t = t ++ ([] : List Char) by simp,
        splitWsAux_append t [] [] hns]
      obtain ⟨c, t'', rfl⟩ : ∃ c t'', t = c :: t'' := by
        cases t with
        | nil => exact absurd rfl hne
        | cons a b => exact ⟨a, b, rfl⟩
      simp [splitWsAux]
    | cons t' ts'' =>
      show splitWsAux (joinSp (t :: t' :: ts'')) [] = t :: t' :: ts''
      rw [show joinSp (t :: t' :: ts'') = t ++ ' ' :: joinSp (t' :: ts'') from rfl,
        splitWsAux_append t _ [] hns, List.append_nil]
      have hsp : isPySpace ' ' = true := rfl
      obtain ⟨c, t'', rfl⟩ : ∃ c t'', t = c :: t'' := by
        cases t with
        | nil => exact absurd rfl hne
        | cons a b => exact ⟨a, b, rfl⟩
      have hrev : (c :: t'').reverse ≠ [] := by simp
      obtain ⟨a, as, has⟩ : ∃ a as, (c :: t'').reverse = a :: as := by
        cases hx : (c :: t'').reverse with
        | nil => exact absurd hx hrev
        | cons a as => exact ⟨a, as, rfl⟩
      rw [has]
      simp only [splitWsAux, hsp, if_true, List.isEmpty_cons, Bool.false_eq_true, if_false]
      rw [← has, List.reverse_reverse]
      exact congrArg _ (ih hrest)

/-- On a string free of null and replacement characters, preprocessing is
exactly the space-join of the whitespace split: the two character filters and
the final strip are the identity there. -/
theorem preprocessL_eq_joinSp (s : List Char)
    (h : ∀ c ∈ s, ¬(c = '\x00') ∧ ¬(c = '�')) :
    preprocessL s = joinSp (pySplitL s) := by
  by_cases hs : s = []
  · subst hs
    rfl
  · have htok : ∀ u ∈ pySplitL s, u ≠ [] ∧ ∀ c ∈ u, isPySpace c = false :=
      fun u hu => mem_splitWsAux s [] u hu (by simp)
    have hclean : ∀ c ∈ joinSp (pySplitL s), ¬(c = '\x00') ∧ ¬(c = '�') := by
      intro c hc
      rcases mem_joinSp _ c hc with ⟨t, ht, hct⟩ | rfl
      · rcases mem_of_mem_splitWsAux s [] t c ht hct with h1 | h1
        · exact h c h1
        · simp at h1
      · exact ⟨by decide, by decide⟩
    have hf0 : List.filter (fun c => !(c == '\x00')) (joinSp (pySplitL s))
        = joinSp (pySplitL s) :=
      List.filter_eq_self.mpr (fun a ha => by simpa using (hclean a ha).1)
    have hf1 : List.filter (fun c => !(c == '�')) (joinSp (pySplitL s))
        = joinSp (pySplitL s) :=
      List.filter_eq_self.mpr (fun a ha => by simpa using (hclean a ha).2)
    unfold preprocessL
    rw [if_neg (by simpa using hs), hf0, hf1]
    exact pyStripL_joinSp _ htok

/-- Preprocessing is idempotent on character lists free of null and
replacement characters. -/
theorem preprocessL_idem (s : List Char)
    (h : ∀ c ∈ s, ¬(c = '\x00') ∧ ¬(c = '�')) :
    preprocessL (preprocessL s) = preprocessL s := by
  have htok : ∀ u ∈ pySplitL s, u ≠ [] ∧ ∀ c ∈ u, isPySpace c = false :=
    fun u hu => mem_splitWsAux s [] u hu (by simp)
  have hclean2 : ∀ c ∈ joinSp (pySplitL s), ¬(c = '\x00') ∧ ¬(c = '�') := by
    intro c hc
    rcases mem_joinSp _ c hc with ⟨t, ht, hct⟩ | rfl
    · rcases mem_of_mem_splitWsAux s [] t c ht hct with h1 | h1
      · exact h c h1
      · simp at h1
    · exact ⟨by decide, by decide⟩
  rw [preprocessL_eq_joinSp s h, preprocessL_eq_joinSp _ hclean2, pySplitL_joinSp _ htok]

/-- claim C4 (amended): the text normalizer is idempotent on every string
containing no null character and no Unicode replacement character (for other
strings the deletion of those characters after whitespace collapsing can
create a fresh double space, as the counterexample shows). -/
theorem claim_C4_amended (t : String)
    (h : ∀ c ∈ t.toList, ¬(c = '\x00') ∧ ¬(c = '�')) :
    preprocess_text (preprocess_text t) = preprocess_text t := by
  show String.mk (preprocessL (String.toList (String.mk (preprocessL t.toList))))
      = String.mk (preprocessL t.toList)
  rw [show String.toList (String.mk (preprocessL t.toList)) = preprocessL t.toList from rfl]
  exact congrArg String.mk (preprocessL_idem t.toList h)

/-- Witness for claim C4 (amended) at a concrete clean string. -/
theorem claim_C4_amended_witness :
    preprocess_text (preprocess_text "  legal   document \n text  ")
      = preprocess_text "  legal   document \n text  " :=
  claim_C4_amended "  legal   document \n text  " (by decide)
